import Mathlib

/-!
# Verification of the rpi-video-player browser client state logic

Shallow embedding of `static/js/main.js`: the mutable client state
(`currentPlaylist`, `currentlyPlayingIndex` and the user-visible status
facets) is a record, and each network-driven handler becomes a pure
function from the old state and the network outcome to the new state.
JS `null` is modelled by `Option`; JS numbers standing for indices by `Int`.
-/

namespace RpiVideoPlayer

/-- A playlist entry as served by `GET /api/videos`: `{name, filename}`. -/
structure MediaEntry where
  name : String
  filename : String
deriving DecidableEq, Repr

/-- The body of `GET /api/playback/status`:
`{isPlaying: bool, currentVideo: {name,filename}|null, currentIndex: int|null}`. -/
structure PlaybackStatus where
  isPlaying : Bool
  currentVideo : Option MediaEntry
  currentIndex : Option Int
deriving DecidableEq, Repr

/-- The client's mutable state: the two JS variables `currentPlaylist` and
`currentlyPlayingIndex`, plus the user-visible DOM facets the handlers write
(`playbackStatus`, `currentVideo` and `uploadStatus` elements).
`currentlyPlayingIndex` is `Option Int` because the code assigns the raw
remote `currentIndex`, which the contract allows to be `null`. -/
structure ClientState where
  currentPlaylist : List MediaEntry
  currentlyPlayingIndex : Option Int
  playbackStatusText : String
  playbackStatusClass : String
  currentVideoText : String
  uploadStatusText : String
  uploadStatusClass : String
deriving DecidableEq, Repr

/-- State at `DOMContentLoaded`: `currentPlaylist = []`,
`currentlyPlayingIndex = -1`; the text facets start empty. -/
def initState : ClientState :=
  { currentPlaylist := []
    currentlyPlayingIndex := some (-1)
    playbackStatusText := ""
    playbackStatusClass := ""
    currentVideoText := ""
    uploadStatusText := ""
    uploadStatusClass := "" }

/-- Outcome of one HTTP round trip as the handlers see it: a parsed success
body, or a failure (network error or non-ok status, which the handlers treat
through one `catch`). -/
inductive NetResult (α : Type) where
  | ok (a : α)
  | err
deriving DecidableEq, Repr

/-- `fetchPlaylist`: on success `currentPlaylist = await response.json()`;
on failure the playlist variable is untouched (only an error `<li>` is
rendered). -/
def applyFetchResult (s : ClientState) (r : NetResult (List MediaEntry)) : ClientState :=
  match r with
  | .ok pl => { s with currentPlaylist := pl }
  | .err => s

/-- Success branch of `fetchPlaybackStatus` (lines 245-268): copies the
remote `currentIndex` verbatim when playing with a current video, resets to
`-1` when playing without one, and in the non-playing branch only rewrites
the text facets (the index resets there are commented out), with the
`Black Screen` sentinel getting its own current-video text. -/
def applyStatus (s : ClientState) (st : PlaybackStatus) : ClientState :=
  if st.isPlaying then
    match st.currentVideo with
    | some v =>
        { s with playbackStatusText := "Status: Playing"
                 playbackStatusClass := "status-playing"
                 currentVideoText := "Current Video: " ++ v.name
                 currentlyPlayingIndex := st.currentIndex }
    | none =>
        { s with playbackStatusText := "Status: Playing"
                 playbackStatusClass := "status-playing"
                 currentVideoText := "Current Video: Unknown"
                 currentlyPlayingIndex := some (-1) }
  else
    match st.currentVideo with
    | some v =>
        if v.name = "Black Screen" then
          { s with playbackStatusText := "Status: Stopped/Idle"
                   playbackStatusClass := "status-idle"
                   currentVideoText := "Current Video: Black Screen" }
        else
          { s with playbackStatusText := "Status: Stopped/Idle"
                   playbackStatusClass := "status-idle"
                   currentVideoText := "Current Video: None" }
    | none =>
        { s with playbackStatusText := "Status: Stopped/Idle"
                 playbackStatusClass := "status-idle"
                 currentVideoText := "Current Video: None" }

/-- `catch` branch of `fetchPlaybackStatus` (lines 270-277): error facets
set, `currentlyPlayingIndex` (reset commented out) and playlist untouched. -/
def applyStatusFailure (s : ClientState) : ClientState :=
  { s with playbackStatusText := "Status: Error fetching status"
           playbackStatusClass := "status-error"
           currentVideoText := "Current Video: Unknown" }

/-- One full `fetchPlaybackStatus` call with its network outcome. -/
def applyStatusResult (s : ClientState) (r : NetResult PlaybackStatus) : ClientState :=
  match r with
  | .ok st => applyStatus s st
  | .err => applyStatusFailure s

/-- Lines 131-134 of `updatePlaylistOrder`: map each confirmed filename to
`currentPlaylist.find(...)` and `filter(Boolean)` the misses. -/
def applyConfirmedOrder (pl : List MediaEntry) (order : List String) : List MediaEntry :=
  ((order.map (fun fn => pl.find? (fun v => v.filename == fn))).filterMap id)

/-- `updatePlaylistOrder` (lines 114-142): if the candidate length differs
from `currentPlaylist.length`, re-fetch and return; otherwise POST the
reorder, and on success install the mapped-and-filtered candidate and poll
the status, on failure re-fetch. -/
def updatePlaylistOrderModel (s : ClientState) (order : List String)
    (reorderResp : NetResult Unit) (refetch : NetResult (List MediaEntry))
    (st : NetResult PlaybackStatus) : ClientState :=
  if order.length ≠ s.currentPlaylist.length then
    applyFetchResult s refetch
  else
    match reorderResp with
    | .ok _ =>
        applyStatusResult
          { s with currentPlaylist := applyConfirmedOrder s.currentPlaylist order } st
    | .err => applyFetchResult s refetch

/-- JS `a || b` on a string field that may be absent: `null`/`undefined`
and the empty string are falsy. -/
def jsOr (v : Option String) (d : String) : String :=
  match v with
  | some x => if x = "" then d else x
  | none => d

/-- Parsed upload response: ok body `{message, filename}`, a non-ok body
whose `error` field may be absent, or a thrown fetch/json error. -/
inductive UploadResponse where
  | ok (message filename : String)
  | errBody (error : Option String)
  | netFail
deriving DecidableEq, Repr

/-- The `uploadForm` submit handler (lines 145-177): no file selected
reports an error and returns before any request; a success reports the
message and re-fetches the playlist; a non-ok body surfaces
`result.error || 'Upload failed'`; a thrown error reports a generic
failure. Only the success path touches the playlist. -/
def uploadFlow (s : ClientState) (hasFile : Bool) (resp : UploadResponse)
    (refetch : NetResult (List MediaEntry)) : ClientState :=
  if !hasFile then
    { s with uploadStatusText := "Please select a video file."
             uploadStatusClass := "status-error" }
  else
    match resp with
    | .ok msg fn =>
        applyFetchResult
          { s with uploadStatusText := "Success: " ++ msg ++ " (" ++ fn ++ ")"
                   uploadStatusClass := "status-success" } refetch
    | .errBody e =>
        { s with uploadStatusText := "Error: " ++ jsOr e "Upload failed"
                 uploadStatusClass := "status-error" }
    | .netFail =>
        { s with uploadStatusText := "Upload failed. See console for details."
                 uploadStatusClass := "status-error" }

/-- `deleteVideo` success path (lines 185-188): re-fetch the playlist and
re-poll the status; its failure paths only `alert` and leave the state
alone. -/
def deleteFlowSuccess (s : ClientState) (refetch : NetResult (List MediaEntry))
    (st : NetResult PlaybackStatus) : ClientState :=
  applyStatusResult (applyFetchResult s refetch) st

/-- Is a stored index the JS `-1`/`null` "none", or a valid position in the
playlist? -/
def idxOk (i : Option Int) (len : Nat) : Bool :=
  match i with
  | none => true
  | some n => n == -1 || (0 ≤ n && n < (len : Int))

/-- The spec's index invariant on a client state. -/
def playingIndexInBounds (s : ClientState) : Bool :=
  idxOk s.currentlyPlayingIndex s.currentPlaylist.length

/-- Does a polled status carry an index that is "none"-or-valid for the given
local playlist (only constrains the branch that stores the remote index)? -/
def statusIndexOk (st : PlaybackStatus) (pl : List MediaEntry) : Bool :=
  if st.isPlaying then
    match st.currentVideo with
    | some _ => idxOk st.currentIndex pl.length
    | none => true
  else true

/-- Is `p` a prefix of `l`, on characters. -/
def charsPrefix : List Char → List Char → Bool
  | [], _ => true
  | _ :: _, [] => false
  | a :: as, b :: bs => a == b && charsPrefix as bs

/-- Does `pat` occur inside `l`, on characters (JS `String.includes`). -/
def charsIncludes : List Char → List Char → Bool
  | [], pat => pat.isEmpty
  | c :: rest, pat => charsPrefix pat (c :: rest) || charsIncludes rest pat

/-- JS `s.includes(pat)`. -/
def strIncludes (s pat : String) : Bool :=
  charsIncludes s.toList pat.toList

/-- `renderPlaylist` highlighting (lines 47-50): list positions that get the
`playing` class — `index === currentlyPlayingIndex` and the status text
contains `'Playing'`. -/
def highlightedIndices (s : ClientState) : List Nat :=
  (List.range s.currentPlaylist.length).filter
    (fun i => s.currentlyPlayingIndex == some ((i : Nat) : Int)
      && strIncludes s.playbackStatusText "Playing")

/-- The user-visible playback presentation: the status line and the
current-video line. -/
def displayedState (s : ClientState) : String × String :=
  (s.playbackStatusText, s.currentVideoText)

/-- Client states reachable from startup through the public operations, with
the network free to answer anything: playlist fetch, status poll, upload,
reorder, delete. -/
inductive Reachable : ClientState → Prop
  | init : Reachable initState
  | fetch (s : ClientState) (r : NetResult (List MediaEntry)) :
      Reachable s → Reachable (applyFetchResult s r)
  | poll (s : ClientState) (r : NetResult PlaybackStatus) :
      Reachable s → Reachable (applyStatusResult s r)
  | upload (s : ClientState) (hasFile : Bool) (resp : UploadResponse)
      (refetch : NetResult (List MediaEntry)) :
      Reachable s → Reachable (uploadFlow s hasFile resp refetch)
  | reorder (s : ClientState) (order : List String) (rr : NetResult Unit)
      (rf : NetResult (List MediaEntry)) (st : NetResult PlaybackStatus) :
      Reachable s → Reachable (updatePlaylistOrderModel s order rr rf st)
  | del (s : ClientState) (rf : NetResult (List MediaEntry))
      (st : NetResult PlaybackStatus) :
      Reachable s → Reachable (deleteFlowSuccess s rf st)

/-- Sample entry `A` used in concrete checks. -/
def entryA : MediaEntry := ⟨"A", "a.mp4"⟩

/-- Sample entry `B` used in concrete checks. -/
def entryB : MediaEntry := ⟨"B", "b.mp4"⟩

/-- Sample entry `C` used in concrete checks. -/
def entryC : MediaEntry := ⟨"C", "c.mp4"⟩

/-! ## Helper lemmas -/

lemma applyStatus_currentPlaylist (s : ClientState) (st : PlaybackStatus) :
    (applyStatus s st).currentPlaylist = s.currentPlaylist := by
  obtain ⟨p, cv, ci⟩ := st
  cases p <;> cases cv <;> simp [applyStatus]
  split <;> rfl

lemma applyStatusResult_currentPlaylist (s : ClientState) (r : NetResult PlaybackStatus) :
    (applyStatusResult s r).currentPlaylist = s.currentPlaylist := by
  cases r with
  | ok st => exact applyStatus_currentPlaylist s st
  | err => rfl

lemma applyConfirmedOrder_spec (pl : List MediaEntry) (order : List String)
    (h : ∀ fn ∈ order, ∃ v ∈ pl, v.filename = fn) :
    (applyConfirmedOrder pl order).map MediaEntry.filename = order ∧
    ∀ e ∈ applyConfirmedOrder pl order, e ∈ pl := by
  induction order with
  | nil => simp [applyConfirmedOrder]
  | cons fn rest ih =>
    obtain ⟨v, hv, hfn⟩ := h fn (List.mem_cons_self _ _)
    have hsome : (pl.find? (fun v => v.filename == fn)).isSome := by
      rw [List.find?_isSome]
      exact ⟨v, hv, by simp [hfn]⟩
    obtain ⟨e, he⟩ := Option.isSome_iff_exists.mp hsome
    have hePl : e ∈ pl := List.mem_of_find?_eq_some he
    have heFn : e.filename = fn := by
      have := List.find?_some he
      simpa using this
    have ih' := ih (fun g hg => h g (List.mem_cons_of_mem _ hg))
    refine ⟨?_, ?_⟩
    · simpa [applyConfirmedOrder, he, heFn] using ih'.1
    · intro x hx
      simp only [applyConfirmedOrder, List.map_cons, he, List.filterMap_cons] at hx
      simp only [id] at hx
      rcases List.mem_cons.mp hx with h1 | h2
      · exact h1 ▸ hePl
      · exact ih'.2 x h2

/-! ## C1: the playing-index bounds invariant -/

/-- State reached by: startup, a successful playlist fetch returning one
item, then a successful status poll reporting `currentIndex = 5`. -/
def stateC1 : ClientState :=
  applyStatusResult (applyFetchResult initState (.ok [entryA]))
    (.ok ⟨true, some entryA, some 5⟩)

/-- C1 counterexample: a state reachable through the public operations — a
successful status poll whose remote `currentIndex` is `5` against a
one-element local playlist — stores `5`, which is neither `-1`/none nor a
valid index into `items`. The code copies the remote index with no bounds
check. -/
theorem C1_counterexample :
    Reachable stateC1 ∧
    stateC1.currentlyPlayingIndex = some 5 ∧
    playingIndexInBounds stateC1 = false :=
  ⟨Reachable.poll _ _ (Reachable.fetch _ _ Reachable.init), by decide, by decide⟩

/-- C1 amended: a successful status poll preserves the bounds invariant
provided the remote-reported `currentIndex` is itself none/`-1` or a valid
index into the local playlist; the code performs no validation of its own. -/
theorem C1_amended_poll_preserves_bounds (s : ClientState) (st : PlaybackStatus)
    (h1 : playingIndexInBounds s = true)
    (h2 : statusIndexOk st s.currentPlaylist = true) :
    playingIndexInBounds (applyStatus s st) = true := by
  obtain ⟨p, cv, ci⟩ := st
  cases p with
  | true =>
    cases cv with
    | some v => exact h2
    | none => simp [playingIndexInBounds, applyStatus, idxOk]
  | false =>
    cases cv with
    | some v =>
      by_cases hbs : v.name = "Black Screen" <;>
        simp [playingIndexInBounds, applyStatus, hbs] <;> exact h1
    | none => exact h1

/-- C1 amended, witnessed at a concrete in-range poll. -/
theorem C1_amended_witness :
    playingIndexInBounds { initState with currentPlaylist := [entryA, entryB] } = true ∧
    statusIndexOk ⟨true, some entryB, some 1⟩ [entryA, entryB] = true ∧
    playingIndexInBounds
      (applyStatus { initState with currentPlaylist := [entryA, entryB] }
        ⟨true, some entryB, some 1⟩) = true :=
  ⟨by decide, by decide,
    C1_amended_poll_preserves_bounds _ _ (by decide) (by decide)⟩

/-! ## C2: unresolvable remote index -/

/-- Local state with two items, for the C2 counterexample. -/
def stateC2 : ClientState := { initState with currentPlaylist := [entryA, entryB] }

/-- Remote status whose `currentIndex` does not resolve in `stateC2`. -/
def statusC2 : PlaybackStatus := ⟨true, some entryC, some 7⟩

/-- C2 counterexample: the remote status has a `currentVideo` and a
`currentIndex` of `7`, which is not a valid position in the two-element
local list; applying it stores `7` — not `-1`/"none" — in
`currentlyPlayingIndex`. -/
theorem C2_counterexample :
    (applyStatus stateC2 statusC2).currentlyPlayingIndex = some 7 ∧
    (applyStatus stateC2 statusC2).currentlyPlayingIndex ≠ some (-1) ∧
    idxOk (some 7) (applyStatus stateC2 statusC2).currentPlaylist.length = false := by
  refine ⟨by decide, by decide, by decide⟩

/-- C2 amended: when the remote status reports a current video together with
an index that is not a valid position in the local list, the code stores
that remote index verbatim (it is not set to "none"); however, the render
highlights no playlist item for such an index, so the highlighted
presentation coincides with the "none" presentation. -/
theorem C2_amended_out_of_range_index (s : ClientState) (st : PlaybackStatus)
    (v : MediaEntry) (n : Int)
    (hp : st.isPlaying = true) (hv : st.currentVideo = some v)
    (hi : st.currentIndex = some n)
    (hout : ¬ (0 ≤ n ∧ n < (s.currentPlaylist.length : Int))) :
    (applyStatus s st).currentlyPlayingIndex = some n ∧
    highlightedIndices (applyStatus s st) = [] := by
  obtain ⟨p, cv, ci⟩ := st
  subst hp; subst hv; subst hi
  refine ⟨rfl, ?_⟩
  simp only [highlightedIndices, applyStatus_currentPlaylist]
  rw [List.filter_eq_nil_iff]
  intro i hi hcond
  rw [List.mem_range] at hi
  rw [Bool.and_eq_true] at hcond
  have h1 : ((applyStatus s ⟨true, some v, some n⟩).currentlyPlayingIndex
      == some ((i : Nat) : Int)) = true := hcond.1
  have h2 : some n = some ((i : Nat) : Int) := eq_of_beq h1
  have h3 : n = ((i : Nat) : Int) := by injection h2
  exact hout ⟨by omega, by omega⟩

/-- C2 amended, witnessed at a concrete out-of-range poll. -/
theorem C2_amended_witness :
    ¬ ((0 : Int) ≤ 9 ∧ (9 : Int) < (stateC2.currentPlaylist.length : Int)) ∧
    (applyStatus stateC2 ⟨true, some entryC, some 9⟩).currentlyPlayingIndex = some 9 ∧
    highlightedIndices (applyStatus stateC2 ⟨true, some entryC, some 9⟩) = [] :=
  ⟨by decide,
    (C2_amended_out_of_range_index stateC2 ⟨true, some entryC, some 9⟩ entryC 9
      rfl rfl rfl (by decide)).1,
    (C2_amended_out_of_range_index stateC2 ⟨true, some entryC, some 9⟩ entryC 9
      rfl rfl rfl (by decide)).2⟩

/-! ## C3: successful reorder of a permutation -/

/-- C3: for any permutation of the current filenames, a successful reorder
installs exactly that order mapped back to the known entries (the resulting
filenames are the candidate order and every resulting entry comes from the
old playlist), and the playing index of the final state is the one produced
by re-polling the status against the reordered playlist. -/
theorem C3_reorder_permutation (s : ClientState) (order : List String)
    (rf : NetResult (List MediaEntry)) (st : NetResult PlaybackStatus)
    (hperm : order.Perm (s.currentPlaylist.map MediaEntry.filename)) :
    ((updatePlaylistOrderModel s order (.ok ()) rf st).currentPlaylist).map
        MediaEntry.filename = order ∧
    (∀ e ∈ (updatePlaylistOrderModel s order (.ok ()) rf st).currentPlaylist,
        e ∈ s.currentPlaylist) ∧
    (updatePlaylistOrderModel s order (.ok ()) rf st).currentlyPlayingIndex =
      (applyStatusResult
        { s with currentPlaylist := applyConfirmedOrder s.currentPlaylist order }
        st).currentlyPlayingIndex := by
  have hlen : order.length = s.currentPlaylist.length := by
    simpa using hperm.length_eq
  have hred : updatePlaylistOrderModel s order (.ok ()) rf st =
      applyStatusResult
        { s with currentPlaylist := applyConfirmedOrder s.currentPlaylist order } st := by
    simp [updatePlaylistOrderModel, hlen]
  have hmem : ∀ fn ∈ order, ∃ v ∈ s.currentPlaylist, v.filename = fn := by
    intro fn hfn
    have : fn ∈ s.currentPlaylist.map MediaEntry.filename := hperm.mem_iff.mp hfn
    obtain ⟨v, hv, hvfn⟩ := List.mem_map.mp this
    exact ⟨v, hv, hvfn⟩
  obtain ⟨h1, h2⟩ := applyConfirmedOrder_spec s.currentPlaylist order hmem
  rw [hred, applyStatusResult_currentPlaylist]
  exact ⟨h1, h2, rfl⟩

/-- C3 witnessed on the spec's scenario: items `[A,B,C]`, drag `C` before
`A`, reorder `["c.mp4","a.mp4","b.mp4"]` succeeds, giving items `[C,A,B]`. -/
theorem C3_witness :
    ["c.mp4", "a.mp4", "b.mp4"].Perm
      (({ initState with currentPlaylist := [entryA, entryB, entryC] :
          ClientState }).currentPlaylist.map MediaEntry.filename) ∧
    ((updatePlaylistOrderModel
        { initState with currentPlaylist := [entryA, entryB, entryC] }
        ["c.mp4", "a.mp4", "b.mp4"] (.ok ()) .err .err).currentPlaylist).map
      MediaEntry.filename = ["c.mp4", "a.mp4", "b.mp4"] :=
  ⟨by decide,
    (C3_reorder_permutation
      { initState with currentPlaylist := [entryA, entryB, entryC] }
      ["c.mp4", "a.mp4", "b.mp4"] .err .err (by decide)).1⟩

/-! ## C4: set mismatch never partially applied -/

/-- C4 counterexample: local items `[A,B]`, candidate `["a.mp4","c.mp4"]` —
same length, different set. The reorder request succeeds and the code
installs the mapped-and-filtered candidate `[A]` — a partial application —
rather than the full re-fetch result `[A,C]`. -/
theorem C4_counterexample :
    (["a.mp4", "c.mp4"] : List String).length =
      ({ initState with currentPlaylist := [entryA, entryB] :
        ClientState }).currentPlaylist.length ∧
    "c.mp4" ∉ ([entryA, entryB].map MediaEntry.filename) ∧
    (updatePlaylistOrderModel { initState with currentPlaylist := [entryA, entryB] }
      ["a.mp4", "c.mp4"] (.ok ()) (.ok [entryA, entryC]) .err).currentPlaylist =
      [entryA] ∧
    (updatePlaylistOrderModel { initState with currentPlaylist := [entryA, entryB] }
        ["a.mp4", "c.mp4"] (.ok ()) (.ok [entryA, entryC]) .err).currentPlaylist ≠
      (applyFetchResult { initState with currentPlaylist := [entryA, entryB] }
        (.ok [entryA, entryC])).currentPlaylist := by
  refine ⟨by decide, by decide, by decide, by decide⟩

/-- C4 amended: the full re-fetch recovery is taken exactly on the two
failure paths the code has — a candidate whose length differs from the local
playlist (detected before sending) or a failed reorder request; in both
cases the final state is the re-fetch result and no part of the candidate is
installed. A same-length set mismatch on a successful request is instead
resolved by dropping unresolvable filenames (see the counterexample). -/
theorem C4_amended_refetch_paths (s : ClientState) (order : List String)
    (rr : NetResult Unit) (rf : NetResult (List MediaEntry))
    (st : NetResult PlaybackStatus)
    (h : order.length ≠ s.currentPlaylist.length ∨ rr = .err) :
    updatePlaylistOrderModel s order rr rf st = applyFetchResult s rf := by
  rcases h with h | h
  · simp [updatePlaylistOrderModel, h]
  · subst h
    by_cases hlen : order.length = s.currentPlaylist.length <;>
      simp [updatePlaylistOrderModel, hlen]

/-- C4 amended, witnessed on a failed reorder request: final state is the
re-fetch result. -/
theorem C4_amended_witness :
    ((["b.mp4", "a.mp4"] : List String).length ≠
        ({ initState with currentPlaylist := [entryA, entryB] :
          ClientState }).currentPlaylist.length ∨
      (NetResult.err : NetResult Unit) = .err) ∧
    updatePlaylistOrderModel { initState with currentPlaylist := [entryA, entryB] }
        ["b.mp4", "a.mp4"] .err (.ok [entryB]) .err =
      applyFetchResult { initState with currentPlaylist := [entryA, entryB] }
        (.ok [entryB]) :=
  ⟨Or.inr rfl,
    C4_amended_refetch_paths { initState with currentPlaylist := [entryA, entryB] }
      ["b.mp4", "a.mp4"] .err (.ok [entryB]) .err (Or.inr rfl)⟩

/-! ## C5: mismatch detection is by length only -/

/-- C5 counterexample: candidate `["b.mp4","x.mp4"]` against items `[A,B]`
has the same cardinality but a different member set, yet it is not rejected:
the pre-send check passes, the request is sent, and on success the filtered
candidate `[B]` is installed instead of the recovery re-fetch `[A,B]`. -/
theorem C5_counterexample :
    (["b.mp4", "x.mp4"] : List String).length =
      ({ initState with currentPlaylist := [entryA, entryB] :
        ClientState }).currentPlaylist.length ∧
    "x.mp4" ∉ ([entryA, entryB].map MediaEntry.filename) ∧
    (updatePlaylistOrderModel { initState with currentPlaylist := [entryA, entryB] }
      ["b.mp4", "x.mp4"] (.ok ()) (.ok [entryA, entryB]) .err).currentPlaylist =
      [entryB] ∧
    (updatePlaylistOrderModel { initState with currentPlaylist := [entryA, entryB] }
        ["b.mp4", "x.mp4"] (.ok ()) (.ok [entryA, entryB]) .err).currentPlaylist ≠
      [entryA, entryB] := by
  refine ⟨by decide, by decide, by decide, by decide⟩

/-- C5 amended: the only pre-send rejection is the cardinality check — any
candidate whose length equals the local playlist's is sent, and on a
successful request the mapped-and-filtered candidate is installed followed
by the status re-poll, regardless of whether its member set matches. -/
theorem C5_amended_length_only (s : ClientState) (order : List String)
    (rf : NetResult (List MediaEntry)) (st : NetResult PlaybackStatus)
    (h : order.length = s.currentPlaylist.length) :
    updatePlaylistOrderModel s order (.ok ()) rf st =
      applyStatusResult
        { s with currentPlaylist := applyConfirmedOrder s.currentPlaylist order } st := by
  simp [updatePlaylistOrderModel, h]

/-- C5 amended, witnessed on a same-length candidate with a foreign
filename: the candidate is processed, not rejected. -/
theorem C5_amended_witness :
    (["b.mp4", "x.mp4"] : List String).length =
      ({ initState with currentPlaylist := [entryA, entryB] :
        ClientState }).currentPlaylist.length ∧
    updatePlaylistOrderModel { initState with currentPlaylist := [entryA, entryB] }
        ["b.mp4", "x.mp4"] (.ok ()) .err .err =
      applyStatusResult
        { initState with currentPlaylist :=
            applyConfirmedOrder [entryA, entryB] ["b.mp4", "x.mp4"] } .err :=
  ⟨by decide,
    C5_amended_length_only { initState with currentPlaylist := [entryA, entryB] }
      ["b.mp4", "x.mp4"] .err .err (by decide)⟩

/-! ## C6: status-poll failure is fail-soft -/

/-- C6: a failed status poll (network error or non-ok response, both routed
through the same `catch`) sets the error facet and leaves both the stored
playing index and the items sequence exactly as they were. -/
theorem C6_poll_failure_failsoft (s : ClientState) :
    (applyStatusResult s .err).currentlyPlayingIndex = s.currentlyPlayingIndex ∧
    (applyStatusResult s .err).currentPlaylist = s.currentPlaylist ∧
    (applyStatusResult s .err).playbackStatusText = "Status: Error fetching status" ∧
    (applyStatusResult s .err).playbackStatusClass = "status-error" :=
  ⟨rfl, rfl, rfl, rfl⟩

/-! ## C7: status application is idempotent -/

/-- C7: applying the same `PlaybackStatus` twice in a row yields the same
client state — items, playing index and all displayed facets — as applying
it once. -/
theorem C7_status_idempotent (s : ClientState) (st : PlaybackStatus) :
    applyStatus (applyStatus s st) st = applyStatus s st := by
  obtain ⟨p, cv, ci⟩ := st
  cases p with
  | true => cases cv <;> rfl
  | false =>
    cases cv with
    | some v =>
      by_cases hbs : v.name = "Black Screen" <;> simp [applyStatus, hbs]
    | none => rfl

/-! ## C8: upload failure surfaces the server reason, state untouched -/

/-- C8: a failed upload whose body carries a non-empty server reason
surfaces exactly that reason in the upload status facet (the code prefixes
it with the fixed label `Error: `), marks it as an error, leaves the items
sequence unchanged, and depends in no way on any playlist fetch — the
failure path never re-fetches. -/
theorem C8_upload_failure_reason (s : ClientState) (r : String)
    (rf rf2 : NetResult (List MediaEntry)) (h : r ≠ "") :
    (uploadFlow s true (.errBody (some r)) rf).uploadStatusText = "Error: " ++ r ∧
    (uploadFlow s true (.errBody (some r)) rf).uploadStatusClass = "status-error" ∧
    (uploadFlow s true (.errBody (some r)) rf).currentPlaylist = s.currentPlaylist ∧
    (uploadFlow s true (.errBody (some r)) rf).currentlyPlayingIndex =
      s.currentlyPlayingIndex ∧
    uploadFlow s true (.errBody (some r)) rf = uploadFlow s true (.errBody (some r)) rf2 := by
  simp [uploadFlow, jsOr, h]

/-- C8 witnessed on the spec's scenario body `{error:"unsupported format"}`. -/
theorem C8_witness :
    ("unsupported format" : String) ≠ "" ∧
    (uploadFlow { initState with currentPlaylist := [entryA] } true
        (.errBody (some "unsupported format")) .err).uploadStatusText =
      "Error: " ++ "unsupported format" ∧
    (uploadFlow { initState with currentPlaylist := [entryA] } true
        (.errBody (some "unsupported format")) .err).currentPlaylist = [entryA] :=
  ⟨by decide,
    (C8_upload_failure_reason { initState with currentPlaylist := [entryA] }
      "unsupported format" .err .err (by decide)).1,
    (C8_upload_failure_reason { initState with currentPlaylist := [entryA] }
      "unsupported format" .err .err (by decide)).2.2.1⟩

/-! ## C9: the Black Screen sentinel has its own presentation -/

/-- C9: a poll reporting `isPlaying = false` with `currentVideo.name` equal
to the literal `"Black Screen"` produces a displayed state (status line and
current-video line) different from every "Playing" display and from every
"no current video" display: its status line reads `Status: Stopped/Idle`
while its current-video line reads `Current Video: Black Screen`. -/
theorem C9_black_screen_distinct (s1 s2 s3 : ClientState)
    (stB stP stN : PlaybackStatus) (f : String)
    (hB1 : stB.isPlaying = false) (hB2 : stB.currentVideo = some ⟨"Black Screen", f⟩)
    (hP : stP.isPlaying = true)
    (hN1 : stN.isPlaying = false)
    (hN2 : ∀ v, stN.currentVideo = some v → v.name ≠ "Black Screen") :
    displayedState (applyStatus s1 stB) ≠ displayedState (applyStatus s2 stP) ∧
    displayedState (applyStatus s1 stB) ≠ displayedState (applyStatus s3 stN) := by
  obtain ⟨pB, cvB, ciB⟩ := stB
  obtain ⟨pP, cvP, ciP⟩ := stP
  obtain ⟨pN, cvN, ciN⟩ := stN
  subst hB1; subst hP; subst hN1
  simp only at hB2 hN2
  subst hB2
  constructor
  · cases cvP <;>
      simp [displayedState, applyStatus, Prod.ext_iff]
  · cases cvN with
    | some w =>
      have hw : w.name ≠ "Black Screen" := hN2 w rfl
      simp [displayedState, applyStatus, hw, Prod.ext_iff]
    | none =>
      simp [displayedState, applyStatus, Prod.ext_iff]

/-- C9 witnessed on concrete statuses: the sentinel display differs from a
playing display and from a stopped display with no current video. -/
theorem C9_witness :
    displayedState (applyStatus initState ⟨false, some ⟨"Black Screen", ""⟩, none⟩) ≠
      displayedState (applyStatus initState ⟨true, some entryA, some 0⟩) ∧
    displayedState (applyStatus initState ⟨false, some ⟨"Black Screen", ""⟩, none⟩) ≠
      displayedState (applyStatus initState ⟨false, none, none⟩) :=
  C9_black_screen_distinct initState initState initState
    ⟨false, some ⟨"Black Screen", ""⟩, none⟩ ⟨true, some entryA, some 0⟩
    ⟨false, none, none⟩ "" rfl rfl rfl rfl
    (by intro v hv; simp at hv)

/-! ## C10: submitting with no file selected -/

/-- C10: when no file is selected, the submit handler reports
`Please select a video file.` as an error and returns before any request is
built: the resulting state does not depend on the would-be network response
or playlist re-fetch, and the items sequence and playing index are
untouched. -/
theorem C10_upload_no_file (s : ClientState) (resp resp2 : UploadResponse)
    (rf rf2 : NetResult (List MediaEntry)) :
    uploadFlow s false resp rf = uploadFlow s false resp2 rf2 ∧
    (uploadFlow s false resp rf).currentPlaylist = s.currentPlaylist ∧
    (uploadFlow s false resp rf).currentlyPlayingIndex = s.currentlyPlayingIndex ∧
    (uploadFlow s false resp rf).uploadStatusText = "Please select a video file." ∧
    (uploadFlow s false resp rf).uploadStatusClass = "status-error" :=
  ⟨rfl, rfl, rfl, rfl, rfl⟩

end RpiVideoPlayer
